import Mathlib

/-!
Verification of the green-garden-guardian hub firmware
(`src/hardware/esp32_hub_firmware/`): a shallow embedding of the node
registry, the ESP-NOW control-send path (`esp_now_comm.cpp`), the
Firebase pull/reconciliation path (`wifi_firebase.cpp`) and the EEPROM
settings store (`settings_eeprom.cpp`), together with theorems settling
the specification claims about them.

Machine floats (`float` in the C source) are modelled by `FVal`:
either NaN, an infinity, or an exact rational value.  The comparison
functions below reproduce IEEE/C comparison semantics on this model
(every ordered comparison involving NaN is false; `!=` involving NaN is
true), which is all the source relies on.
-/

/-- Model of a C `float` value: NaN, +inf, -inf, or a finite value
represented exactly as a rational. -/
inductive FVal where
  | nan
  | inf
  | ninf
  | val (q : ℚ)
deriving DecidableEq, Repr

/-- True exactly on NaN, like C `isnan`. -/
def FVal.isNaN : FVal → Bool
  | .nan => true
  | _ => false

/-- C `<` on floats: any comparison involving NaN is false. -/
def flt : FVal → FVal → Bool
  | .nan, _ => false
  | _, .nan => false
  | .inf, _ => false
  | .ninf, .ninf => false
  | .ninf, _ => true
  | .val _, .inf => true
  | .val _, .ninf => false
  | .val a, .val b => decide (a < b)

/-- C `>` on floats. -/
def fgt (a b : FVal) : Bool := flt b a

/-- C `==` on floats: false whenever NaN is involved, structural equality
otherwise (infinities compare equal to themselves, finite values by
numeric equality). -/
def feq (a b : FVal) : Bool :=
  if a.isNaN || b.isNaN then false else decide (a = b)

/-- C `!=` on floats: true whenever NaN is involved. -/
def fne (a b : FVal) : Bool := !(feq a b)

/-- Embedding of `SensorData` (`data_structures.h`): one telemetry
sample.  `nodeId` is the `uint8_t` node id, `ventStatus` the raw status
byte, `timestamp` the node-side `uint32_t` clock. -/
structure SensorData where
  nodeId : Nat
  temperature : FVal
  humidity : FVal
  pressure : FVal
  ventStatus : Nat
  timestamp : Nat
deriving DecidableEq, Repr

/-- Embedding of `ScheduleSettings` (`data_structures.h`) with the
source's default member initializers. -/
structure ScheduleSettings where
  openHour : Nat := 8
  openMinute : Nat := 0
  closeHour : Nat := 18
  closeMinute : Nat := 0
  scheduleEnabled : Bool := false
deriving DecidableEq, Repr

/-- Embedding of `GreenhouseSettings` (`data_structures.h`) with the
source's default member initializers; `manualCommand` is the C `char`
(0 meaning "none"). -/
structure GreenhouseSettings where
  temperatureThreshold : FVal := .val 25
  hysteresis : FVal := .val (mkRat 1 2)
  autoMode : Bool := true
  manualCommand : Char := Char.ofNat 0
  schedule : ScheduleSettings := {}
deriving DecidableEq, Repr

/-- Embedding of `GreenhouseData` (`data_structures.h`): one registry
record. `lastSeen` holds the `millis()` value at the last telemetry. -/
structure GreenhouseData where
  sensor : SensorData
  settings : GreenhouseSettings
  isOnline : Bool
  lastSeen : Nat
deriving DecidableEq, Repr

/-- Embedding of the wire `ControlMessage` (`data_structures.h`). -/
structure ControlMessage where
  targetNodeId : Nat
  tempThreshold : FVal
  hysteresis : FVal
  autoMode : Bool
  manualCommand : Char
deriving DecidableEq, Repr

/-- The node registry: the global `greenhouses[]` array, indexed by
node id. -/
abbrev Registry := Nat → GreenhouseData

/-- Write one registry slot (assignment to `greenhouses[i]`). -/
def updateAt (g : Registry) (i : Nat) (d : GreenhouseData) : Registry :=
  fun j => if j = i then d else g j

/-- Modulus of the 32-bit `unsigned long` used by `millis()` on the
ESP32. -/
def UINT32_MOD : Nat := 4294967296

/-- The unsigned 32-bit subtraction `now - last` computed by the source
in expressions such as `millis() - greenhouses[i].lastSeen`. -/
def elapsed (now last : Nat) : Nat :=
  (now % UINT32_MOD + (UINT32_MOD - last % UINT32_MOD)) % UINT32_MOD

/-- The `ControlMessage` built from the registry record of `nodeId`
(`esp_now_comm.cpp` lines 31-36). -/
def mkControlMessage (g : Registry) (nodeId : Nat) : ControlMessage :=
  { targetNodeId := nodeId
    tempThreshold := (g nodeId).settings.temperatureThreshold
    hysteresis := (g nodeId).settings.hysteresis
    autoMode := (g nodeId).settings.autoMode
    manualCommand := (g nodeId).settings.manualCommand }

/-- Embedding of `sendControlToNode` (`esp_now_comm.cpp` lines 24-61).
Returns the new registry plus the payload handed to `esp_now_send`
(`none` when the early `isOnline` guard returns).  The `esp_err_t`
result of `esp_now_send` is only printed by the source and never
affects state, so it is not modelled; the clearing of `manualCommand`
after the send is unconditional in the source. -/
def sendControlToNode (g : Registry) (nodeId : Nat) :
    Registry × Option ControlMessage :=
  if (g nodeId).isOnline = false then (g, none)
  else
    let msg := mkControlMessage g nodeId
    let r0 := g nodeId
    (updateAt g nodeId
      { r0 with settings := { r0.settings with manualCommand := Char.ofNat 0 } },
     some msg)

/-- The inline liveness check used by the push loop
(`wifi_firebase.cpp` lines 56-57) and by the spec's `isLive` contract:
seen at least once and within the 300000 ms staleness window. -/
def isLive (g : Registry) (n now : Nat) : Bool :=
  (g n).isOnline && decide (elapsed now (g n).lastSeen < 300000)

/-- A zero `SensorData` record, as in the zero-initialized global
array. -/
def initSensor : SensorData :=
  { nodeId := 0, temperature := .val 0, humidity := .val 0,
    pressure := .val 0, ventStatus := 0, timestamp := 0 }

/-- The initial value of one `greenhouses[]` slot: zeroed sensor data
and liveness fields, settings at their default member initializers. -/
def initData : GreenhouseData :=
  { sensor := initSensor, settings := {}, isOnline := false, lastSeen := 0 }

/-- The initial global registry. -/
def initRegistry : Registry := fun _ => initData

/-- A registry whose node 1 has been seen (telemetry at `millis() = 0`)
and otherwise carries default settings. -/
def onlineReg : Registry :=
  updateAt initRegistry 1 { initData with isOnline := true }

/-- A registry whose node 1 was seen at `millis() = 0` and has a
pending manual command, used for concrete instantiations. -/
def onlinePendingReg : Registry :=
  updateAt initRegistry 1
    { initData with
      isOnline := true
      settings := { initData.settings with manualCommand := 'O' } }

/-- A registry whose node 1 has never been seen but holds a pending
manual command. -/
def offlinePendingReg : Registry :=
  updateAt initRegistry 1
    { initData with settings := { initData.settings with manualCommand := 'O' } }

theorem updateAt_self (g : Registry) (i : Nat) (d : GreenhouseData) :
    updateAt g i d i = d := by
  simp [updateAt]

theorem updateAt_other (g : Registry) (i : Nat) (d : GreenhouseData)
    (j : Nat) (h : j ≠ i) : updateAt g i d j = g j := by
  simp [updateAt, h]

theorem sendControlToNode_offline (g : Registry) (n : Nat)
    (h : (g n).isOnline = false) : sendControlToNode g n = (g, none) := by
  simp [sendControlToNode, h]

theorem sendControlToNode_online (g : Registry) (n : Nat)
    (h : (g n).isOnline = true) :
    sendControlToNode g n =
      (updateAt g n
        { g n with settings :=
            { (g n).settings with manualCommand := Char.ofNat 0 } },
       some (mkControlMessage g n)) := by
  simp [sendControlToNode, h]

/-- C1 (amended): after a `sendControlToNode` call on a node that has
been seen (`isOnline = true`) — whatever the transmit outcome, which
the source only logs — the node's local `manualCommand` equals "none"
(0); a never-seen node is skipped by the early return with the whole
registry left unchanged, its pending `manualCommand` included. -/
theorem sendControl_clears_manualCommand (g : Registry) (n : Nat) :
    ((g n).isOnline = true →
       ((sendControlToNode g n).1 n).settings.manualCommand = Char.ofNat 0) ∧
    ((g n).isOnline = false → (sendControlToNode g n).1 = g) := by
  constructor
  · intro h
    rw [sendControlToNode_online g n h]
    simp [updateAt_self]
  · intro h
    rw [sendControlToNode_offline g n h]

/-- C1 witness: concrete instantiations of both branches of the
amended claim, at node 1 of an online registry and of a never-seen
registry. -/
theorem sendControl_clears_manualCommand_witness :
    ((sendControlToNode onlinePendingReg 1).1 1).settings.manualCommand
        = Char.ofNat 0 ∧
    (sendControlToNode offlinePendingReg 1).1 = offlinePendingReg :=
  ⟨(sendControl_clears_manualCommand onlinePendingReg 1).1 (by decide),
   (sendControl_clears_manualCommand offlinePendingReg 1).2 (by decide)⟩

/-- C1 counterexample: a `sendControlToNode` call on a never-seen node
with a pending manual command leaves `manualCommand` equal to 'O',
refuting the claim that it equals "none" after every call including a
skipped one. -/
theorem sendControl_skipped_keeps_manualCommand :
    ((sendControlToNode offlinePendingReg 1).1 1).settings.manualCommand = 'O' ∧
    ('O' : Char) ≠ Char.ofNat 0 := by
  constructor
  · decide
  · decide

/-- C2 (amended): `sendControlToNode` transmits nothing exactly when
the node has never been seen (`isOnline = false`); the 300000 ms
staleness window is not re-checked inside `sendControlToNode`, so a
once-seen node that has timed out is still transmitted to. -/
theorem sendControl_skips_iff_never_seen (g : Registry) (n : Nat) :
    (sendControlToNode g n).2 = none ↔ (g n).isOnline = false := by
  by_cases h : (g n).isOnline = true
  · rw [sendControlToNode_online g n h]
    simp [h]
  · rw [sendControlToNode_offline g n (by simpa using h)]
    simpa using h

/-- C2 witness: the equivalence evaluated at node 1 of a never-seen
registry. -/
theorem sendControl_skips_iff_never_seen_witness :
    (sendControlToNode initRegistry 1).2 = none :=
  (sendControl_skips_iff_never_seen initRegistry 1).mpr (by decide)

/-- A registry whose node 1 was seen once at `millis() = 0` (so
`isOnline = true`) with default settings; at `now = 400000` the node is
outside the 300000 ms staleness window. -/
def staleReg : Registry :=
  updateAt initRegistry 1 { initData with isOnline := true, lastSeen := 0 }

/-- C2 counterexample: node 1 of `staleReg` is not live at
`now = 400000` (seen 400000 ms ago, beyond the 300000 ms window), yet
`sendControlToNode` still hands a payload to the transport, refuting
the claim that no transmit happens for any non-live node. -/
theorem sendControl_transmits_to_stale_node :
    isLive staleReg 1 400000 = false ∧
    (sendControlToNode staleReg 1).2.isSome = true := by
  constructor
  · decide
  · decide

/-!
The Firebase pull phase (`wifi_firebase.cpp`, download loop lines
110-174).  One remote per-node settings document is modelled by
`RemoteSettingsDoc`: each field is `some v` when `json.get` succeeds
for it (`result.success`) and `none` otherwise.  A fetch that fails or
does not return JSON is modelled as `none` at the `pullNodeSettings`
level.  The processing of one node's document is split into the four
field steps exactly as they appear in sequence in the source.
-/

/-- The recognized fields of one remote `greenhouses/{id}/settings`
document as read by the download loop. -/
structure RemoteSettingsDoc where
  temperatureThreshold : Option FVal
  hysteresis : Option FVal
  mode : Option String
  manualControl : Option String
deriving DecidableEq, Repr

/-- The `manualControl` string-to-char mapping of `wifi_firebase.cpp`
lines 152-157: `char manualCmd = 0` then the three `if` arms. -/
def applyManualString (command : String) : Char :=
  if command = "open" then 'O'
  else if command = "close" then 'C'
  else if command = "stop" then 'S'
  else Char.ofNat 0

/-- Pull-phase step for `temperatureThreshold` (`wifi_firebase.cpp`
lines 118-126): when present and `!=` the local value, store it and
call `sendControlToNode`. -/
def processThreshold (g : Registry) (i : Nat) (v : Option FVal) :
    Registry × List ControlMessage :=
  match v with
  | none => (g, [])
  | some newThreshold =>
      if fne newThreshold (g i).settings.temperatureThreshold then
        let r0 := g i
        let g1 := updateAt g i
          { r0 with settings :=
              { r0.settings with temperatureThreshold := newThreshold } }
        let s := sendControlToNode g1 i
        (s.1, s.2.toList)
      else (g, [])

/-- Pull-phase step for `hysteresis` (`wifi_firebase.cpp` lines
128-136). -/
def processHysteresis (g : Registry) (i : Nat) (v : Option FVal) :
    Registry × List ControlMessage :=
  match v with
  | none => (g, [])
  | some newHysteresis =>
      if fne newHysteresis (g i).settings.hysteresis then
        let r0 := g i
        let g1 := updateAt g i
          { r0 with settings :=
              { r0.settings with hysteresis := newHysteresis } }
        let s := sendControlToNode g1 i
        (s.1, s.2.toList)
      else (g, [])

/-- Pull-phase step for `mode` (`wifi_firebase.cpp` lines 138-147):
`newAutoMode = (mode == "auto")`, applied when it differs from the
local flag. -/
def processMode (g : Registry) (i : Nat) (v : Option String) :
    Registry × List ControlMessage :=
  match v with
  | none => (g, [])
  | some mode =>
      let newAutoMode : Bool := mode == "auto"
      if newAutoMode = (g i).settings.autoMode then (g, [])
      else
        let r0 := g i
        let g1 := updateAt g i
          { r0 with settings := { r0.settings with autoMode := newAutoMode } }
        let s := sendControlToNode g1 i
        (s.1, s.2.toList)

/-- Pull-phase step for `manualControl` (`wifi_firebase.cpp` lines
149-168).  The Bool records whether the clearing write
(`Firebase.RTDB.updateNode` setting `manualControl` to NULL) was issued
back to the remote store; the source issues it exactly when
`manualCmd != 0`. -/
def processManualControl (g : Registry) (i : Nat) (mc : Option String) :
    Registry × List ControlMessage × Bool :=
  match mc with
  | none => (g, [], false)
  | some command =>
      let manualCmd := applyManualString command
      if manualCmd = Char.ofNat 0 then (g, [], false)
      else
        let r0 := g i
        let g1 := updateAt g i
          { r0 with settings := { r0.settings with manualCommand := manualCmd } }
        let s := sendControlToNode g1 i
        (s.1, s.2.toList, true)

/-- Outcome of the pull phase for one node: final registry, the
payloads handed to the transport for that node in order, whether the
remote `manualControl` field was cleared, and whether
`saveSettingsToEEPROM()` was reached (`wifi_firebase.cpp` line 171,
inside the `dataType == "json"` branch). -/
structure PullNodeResult where
  registry : Registry
  sends : List ControlMessage
  clearedManualControl : Bool
  savedToEEPROM : Bool

/-- Processing of one node's fetched settings JSON, fields in source
order: threshold, hysteresis, mode, manualControl, then the
unconditional `saveSettingsToEEPROM()`. -/
def processNodeSettings (g : Registry) (i : Nat) (doc : RemoteSettingsDoc) :
    PullNodeResult :=
  let p1 := processThreshold g i doc.temperatureThreshold
  let p2 := processHysteresis p1.1 i doc.hysteresis
  let p3 := processMode p2.1 i doc.mode
  let p4 := processManualControl p3.1 i doc.manualControl
  { registry := p4.1
    sends := p1.2 ++ p2.2 ++ p3.2 ++ p4.2.1
    clearedManualControl := p4.2.2
    savedToEEPROM := true }

/-- One iteration of the download loop for node `i`
(`wifi_firebase.cpp` lines 110-174): `fetched = none` models a failed
`getJSON` or a non-JSON payload, in which case nothing happens for that
node. -/
def pullNodeSettings (g : Registry) (i : Nat)
    (fetched : Option RemoteSettingsDoc) : PullNodeResult :=
  match fetched with
  | some doc => processNodeSettings g i doc
  | none =>
      { registry := g, sends := [], clearedManualControl := false,
        savedToEEPROM := false }

/-- The manual command char a document maps to (0 when absent or
unrecognized). -/
def manualCmdOf (doc : RemoteSettingsDoc) : Char :=
  match doc.manualControl with
  | some command => applyManualString command
  | none => Char.ofNat 0

/-- How many pull-phase field steps fire for `doc` against the current
record of node `i`: one per recognized field that differs from local
state, plus one for an applicable `manualControl` command. -/
def appliedFieldCount (g : Registry) (i : Nat) (doc : RemoteSettingsDoc) : Nat :=
  (match doc.temperatureThreshold with
   | some t => if fne t (g i).settings.temperatureThreshold then 1 else 0
   | none => 0) +
  (match doc.hysteresis with
   | some h => if fne h (g i).settings.hysteresis then 1 else 0
   | none => 0) +
  (match doc.mode with
   | some mode => if (mode == "auto") = (g i).settings.autoMode then 0 else 1
   | none => 0) +
  (if manualCmdOf doc = Char.ofNat 0 then 0 else 1)

theorem fne_self (a : FVal) (h : a.isNaN = false) : fne a a = false := by
  cases a <;> simp_all [fne, feq, FVal.isNaN]

theorem processThreshold_spec (g : Registry) (i : Nat) (v : Option FVal)
    (hon : (g i).isOnline = true) :
    ((processThreshold g i v).1 i).isOnline = true ∧
    ((processThreshold g i v).1 i).settings.hysteresis
        = (g i).settings.hysteresis ∧
    ((processThreshold g i v).1 i).settings.autoMode
        = (g i).settings.autoMode ∧
    ((processThreshold g i v).1 i).settings.temperatureThreshold
        = (match v with
           | some t =>
               if fne t (g i).settings.temperatureThreshold then t
               else (g i).settings.temperatureThreshold
           | none => (g i).settings.temperatureThreshold) ∧
    (processThreshold g i v).2.length
        = (match v with
           | some t => if fne t (g i).settings.temperatureThreshold then 1 else 0
           | none => 0) := by
  cases v with
  | none => simp [processThreshold, hon]
  | some t =>
      by_cases hd : fne t (g i).settings.temperatureThreshold
      · simp [processThreshold, hd, sendControlToNode, mkControlMessage,
          updateAt, hon]
      · simp [processThreshold, hd, hon]

theorem processHysteresis_spec (g : Registry) (i : Nat) (v : Option FVal)
    (hon : (g i).isOnline = true) :
    ((processHysteresis g i v).1 i).isOnline = true ∧
    ((processHysteresis g i v).1 i).settings.temperatureThreshold
        = (g i).settings.temperatureThreshold ∧
    ((processHysteresis g i v).1 i).settings.autoMode
        = (g i).settings.autoMode ∧
    ((processHysteresis g i v).1 i).settings.hysteresis
        = (match v with
           | some h =>
               if fne h (g i).settings.hysteresis then h
               else (g i).settings.hysteresis
           | none => (g i).settings.hysteresis) ∧
    (processHysteresis g i v).2.length
        = (match v with
           | some h => if fne h (g i).settings.hysteresis then 1 else 0
           | none => 0) := by
  cases v with
  | none => simp [processHysteresis, hon]
  | some h =>
      by_cases hd : fne h (g i).settings.hysteresis
      · simp [processHysteresis, hd, sendControlToNode, mkControlMessage,
          updateAt, hon]
      · simp [processHysteresis, hd, hon]

theorem processMode_spec (g : Registry) (i : Nat) (v : Option String)
    (hon : (g i).isOnline = true) :
    ((processMode g i v).1 i).isOnline = true ∧
    ((processMode g i v).1 i).settings.temperatureThreshold
        = (g i).settings.temperatureThreshold ∧
    ((processMode g i v).1 i).settings.hysteresis
        = (g i).settings.hysteresis ∧
    ((processMode g i v).1 i).settings.autoMode
        = (match v with
           | some mode =>
               if (mode == "auto") = (g i).settings.autoMode then
                 (g i).settings.autoMode
               else (mode == "auto")
           | none => (g i).settings.autoMode) ∧
    (processMode g i v).2.length
        = (match v with
           | some mode =>
               if (mode == "auto") = (g i).settings.autoMode then 0 else 1
           | none => 0) := by
  cases v with
  | none => simp [processMode, hon]
  | some mode =>
      by_cases hd : (mode == "auto") = (g i).settings.autoMode
      · simp [processMode, hd, hon]
      · simp [processMode, hd, sendControlToNode, mkControlMessage,
          updateAt, hon]

theorem processManualControl_spec (g : Registry) (i : Nat) (mc : Option String)
    (hon : (g i).isOnline = true) :
    ((processManualControl g i mc).1 i).isOnline = true ∧
    ((processManualControl g i mc).1 i).settings.temperatureThreshold
        = (g i).settings.temperatureThreshold ∧
    ((processManualControl g i mc).1 i).settings.hysteresis
        = (g i).settings.hysteresis ∧
    ((processManualControl g i mc).1 i).settings.autoMode
        = (g i).settings.autoMode ∧
    (processManualControl g i mc).2.1.length
        = (match mc with
           | some s => if applyManualString s = Char.ofNat 0 then 0 else 1
           | none => 0) := by
  cases mc with
  | none => simp [processManualControl, hon]
  | some s =>
      by_cases hd : applyManualString s = Char.ofNat 0
      · simp [processManualControl, hd, hon]
      · simp [processManualControl, hd, sendControlToNode, mkControlMessage,
          updateAt, hon]

theorem processManualControl_skip (g : Registry) (i : Nat) (mc : Option String)
    (h : (match mc with
          | some s => applyManualString s
          | none => Char.ofNat 0) = Char.ofNat 0) :
    processManualControl g i mc = (g, [], false) := by
  cases mc with
  | none => simp [processManualControl]
  | some s => simp_all [processManualControl]

theorem processNodeSettings_sends_length (g : Registry) (i : Nat)
    (doc : RemoteSettingsDoc) (hon : (g i).isOnline = true) :
    (processNodeSettings g i doc).sends.length = appliedFieldCount g i doc := by
  obtain ⟨h1on, h1hys, h1auto, h1thr, h1len⟩ :=
    processThreshold_spec g i doc.temperatureThreshold hon
  obtain ⟨h2on, h2thr, h2auto, h2hys, h2len⟩ :=
    processHysteresis_spec _ i doc.hysteresis h1on
  obtain ⟨h3on, h3thr, h3hys, h3auto, h3len⟩ :=
    processMode_spec _ i doc.mode h2on
  obtain ⟨h4on, h4thr, h4hys, h4auto, h4len⟩ :=
    processManualControl_spec _ i doc.manualControl h3on
  have hs : (processNodeSettings g i doc).sends
      = (processThreshold g i doc.temperatureThreshold).2
        ++ (processHysteresis (processThreshold g i doc.temperatureThreshold).1
              i doc.hysteresis).2
        ++ (processMode (processHysteresis
              (processThreshold g i doc.temperatureThreshold).1
              i doc.hysteresis).1 i doc.mode).2
        ++ (processManualControl (processMode (processHysteresis
              (processThreshold g i doc.temperatureThreshold).1
              i doc.hysteresis).1 i doc.mode).1 i doc.manualControl).2.1 := rfl
  rw [hs]
  simp only [List.length_append]
  rw [h1len, h2len, h3len, h4len]
  simp only [h1hys, h2auto, h1auto]
  cases hm : doc.manualControl <;>
    simp [appliedFieldCount, manualCmdOf, hm]

theorem processNodeSettings_second_pass (g : Registry) (i : Nat)
    (doc : RemoteSettingsDoc) (hon : (g i).isOnline = true)
    (hmc : manualCmdOf doc = Char.ofNat 0)
    (htn : doc.temperatureThreshold.all (fun t => !t.isNaN) = true)
    (hhn : doc.hysteresis.all (fun t => !t.isNaN) = true) :
    (processNodeSettings (processNodeSettings g i doc).registry i doc).sends
      = [] := by
  obtain ⟨h1on, h1hys, h1auto, h1thr, -⟩ :=
    processThreshold_spec g i doc.temperatureThreshold hon
  obtain ⟨h2on, h2thr, h2auto, h2hys, -⟩ :=
    processHysteresis_spec _ i doc.hysteresis h1on
  obtain ⟨h3on, h3thr, h3hys, h3auto, -⟩ :=
    processMode_spec _ i doc.mode h2on
  obtain ⟨h4on, h4thr, h4hys, h4auto, -⟩ :=
    processManualControl_spec _ i doc.manualControl h3on
  set G := (processNodeSettings g i doc).registry with hG
  have hGdef : G = (processManualControl (processMode (processHysteresis
      (processThreshold g i doc.temperatureThreshold).1
      i doc.hysteresis).1 i doc.mode).1 i doc.manualControl).1 := rfl
  have hGthr : (G i).settings.temperatureThreshold
      = (match doc.temperatureThreshold with
         | some t =>
             if fne t (g i).settings.temperatureThreshold then t
             else (g i).settings.temperatureThreshold
         | none => (g i).settings.temperatureThreshold) := by
    rw [hGdef, h4thr, h3thr, h2thr, h1thr]
  have hGhys : (G i).settings.hysteresis
      = (match doc.hysteresis with
         | some h =>
             if fne h (g i).settings.hysteresis then h
             else (g i).settings.hysteresis
         | none => (g i).settings.hysteresis) := by
    rw [hGdef, h4hys, h3hys, h2hys]
    simp only [h1hys]
  have hGauto : (G i).settings.autoMode
      = (match doc.mode with
         | some mode =>
             if (mode == "auto") = (g i).settings.autoMode then
               (g i).settings.autoMode
             else (mode == "auto")
         | none => (g i).settings.autoMode) := by
    rw [hGdef, h4auto, h3auto]
    simp only [h2auto, h1auto]
  have hq1 : processThreshold G i doc.temperatureThreshold = (G, []) := by
    cases hdt : doc.temperatureThreshold with
    | none => rfl
    | some t =>
        have hnan : t.isNaN = false := by
          rw [hdt] at htn
          simpa [Option.all] using htn
        have hfne : fne t (G i).settings.temperatureThreshold = false := by
          rw [hGthr]
          simp only [hdt]
          cases hb : fne t (g i).settings.temperatureThreshold
          · simp only [Bool.false_eq_true, if_false]
            exact hb
          · simp only [if_true]
            exact fne_self t hnan
        simp [processThreshold, hfne]
  have hq2 : processHysteresis G i doc.hysteresis = (G, []) := by
    cases hdh : doc.hysteresis with
    | none => rfl
    | some h =>
        have hnan : h.isNaN = false := by
          rw [hdh] at hhn
          simpa [Option.all] using hhn
        have hfne : fne h (G i).settings.hysteresis = false := by
          rw [hGhys]
          simp only [hdh]
          cases hb : fne h (g i).settings.hysteresis
          · simp only [Bool.false_eq_true, if_false]
            exact hb
          · simp only [if_true]
            exact fne_self h hnan
        simp [processHysteresis, hfne]
  have hq3 : processMode G i doc.mode = (G, []) := by
    cases hdm : doc.mode with
    | none => rfl
    | some mode =>
        have hb : (mode == "auto") = (G i).settings.autoMode := by
          rw [hGauto]
          simp only [hdm]
          by_cases hc : (mode == "auto") = (g i).settings.autoMode
          · rw [if_pos hc]
            exact hc
          · rw [if_neg hc]
        simp [processMode, hb]
  have hq4 : processManualControl G i doc.manualControl = (G, [], false) :=
    processManualControl_skip G i doc.manualControl hmc
  show (processNodeSettings G i doc).sends = []
  simp only [processNodeSettings, hq1, hq2, hq3, hq4, List.append_nil]

/-- C3: in the pull phase, the remote `manualControl` strings "open",
"close", "stop" map to the commands 'O', 'C', 'S'; any other string is
ignored (no `manualCommand` applied, nothing sent, remote field not
cleared); whenever a command is applied the clearing write back to the
remote store is issued, and — for a node that has been seen — exactly
one control send for that node is triggered, carrying the command,
after which the local `manualCommand` is reset to "none". -/
theorem pull_manualControl_one_shot (g : Registry) (i : Nat) :
    (applyManualString "open" = 'O' ∧ applyManualString "close" = 'C' ∧
       applyManualString "stop" = 'S') ∧
    (∀ s : String, s ≠ "open" → s ≠ "close" → s ≠ "stop" →
       applyManualString s = Char.ofNat 0) ∧
    (∀ s : String, applyManualString s = Char.ofNat 0 →
       processManualControl g i (some s) = (g, [], false)) ∧
    (∀ s : String, applyManualString s ≠ Char.ofNat 0 →
       (processManualControl g i (some s)).2.2 = true ∧
       ((g i).isOnline = true →
          (processManualControl g i (some s)).2.1 =
            [{ targetNodeId := i
               tempThreshold := (g i).settings.temperatureThreshold
               hysteresis := (g i).settings.hysteresis
               autoMode := (g i).settings.autoMode
               manualCommand := applyManualString s }] ∧
          ((processManualControl g i (some s)).1 i).settings.manualCommand
            = Char.ofNat 0)) := by
  refine ⟨⟨by decide, by decide, by decide⟩, ?_, ?_, ?_⟩
  · intro s h1 h2 h3
    simp [applyManualString, h1, h2, h3]
  · intro s hs
    exact processManualControl_skip g i (some s) (by simpa using hs)
  · intro s hs
    refine ⟨by simp [processManualControl, hs], ?_⟩
    intro hon
    constructor
    · simp [processManualControl, hs, sendControlToNode, mkControlMessage,
        updateAt, hon]
    · simp [processManualControl, hs, sendControlToNode, mkControlMessage,
        updateAt, hon]

/-- C3 witness: at node 1 of an online registry, "open" is applied
(one send carrying 'O', remote field cleared, local command reset) and
an unrecognized string is ignored. -/
theorem pull_manualControl_one_shot_witness :
    (processManualControl onlineReg 1 (some "open")).2.2 = true ∧
    (processManualControl onlineReg 1 (some "open")).2.1 =
      [{ targetNodeId := 1
         tempThreshold := .val 25
         hysteresis := .val (mkRat 1 2)
         autoMode := true
         manualCommand := 'O' }] ∧
    ((processManualControl onlineReg 1 (some "open")).1 1).settings.manualCommand
      = Char.ofNat 0 ∧
    processManualControl onlineReg 1 (some "halt") = (onlineReg, [], false) := by
  obtain ⟨-, -, hskip, happ⟩ := pull_manualControl_one_shot onlineReg 1
  have h1 := happ "open" (by decide)
  have h2 := h1.2 (by decide)
  refine ⟨h1.1, ?_, h2.2, hskip "halt" (by decide)⟩
  rw [h2.1]
  decide

/-- C4 (amended): per node of the pull phase, each recognized field
that differs from local state triggers its own immediate
`sendControlToNode` call as it is applied — a document with k differing
fields (plus an applicable `manualControl` command) yields k (plus one)
sends, not exactly one — and `saveSettingsToEEPROM()` is reached
whenever the fetched document was readable JSON, even when no field
differed; only when the fetch fails or returns non-JSON do no send and
no persist occur for that node. -/
theorem pull_per_field_sends (g : Registry) (i : Nat)
    (doc : RemoteSettingsDoc) (hon : (g i).isOnline = true) :
    (processNodeSettings g i doc).savedToEEPROM = true ∧
    (processNodeSettings g i doc).sends.length = appliedFieldCount g i doc ∧
    pullNodeSettings g i none =
      { registry := g, sends := [], clearedManualControl := false,
        savedToEEPROM := false } := by
  exact ⟨rfl, processNodeSettings_sends_length g i doc hon, rfl⟩

/-- A document whose threshold and hysteresis both differ from the
local defaults. -/
def twoFieldDoc : RemoteSettingsDoc :=
  { temperatureThreshold := some (.val 30), hysteresis := some (.val 1),
    mode := none, manualControl := none }

/-- A document none of whose recognized fields are present. -/
def emptyDoc : RemoteSettingsDoc :=
  { temperatureThreshold := none, hysteresis := none, mode := none,
    manualControl := none }

/-- C4 counterexample: against an online node with default settings, a
document with two differing fields triggers two sends (not exactly
one), and a document with no differing fields still reaches the EEPROM
persist while triggering zero sends (not "no persist"). -/
theorem pull_two_sends_and_unconditional_persist :
    (processNodeSettings onlineReg 1 twoFieldDoc).sends.length = 2 ∧
    (processNodeSettings onlineReg 1 emptyDoc).savedToEEPROM = true ∧
    (processNodeSettings onlineReg 1 emptyDoc).sends.length = 0 := by
  refine ⟨by decide, by decide, by decide⟩

/-- A document that changes only `mode`, from "auto" to "manual". -/
def modeManualDoc : RemoteSettingsDoc :=
  { temperatureThreshold := none, hysteresis := none,
    mode := some "manual", manualControl := none }

/-- C4 witness: the amended theorem at node 1 of an online registry
and a document whose only differing field is `mode`; exactly one send
results. -/
theorem pull_per_field_sends_witness :
    (processNodeSettings onlineReg 1 modeManualDoc).savedToEEPROM = true ∧
    (processNodeSettings onlineReg 1 modeManualDoc).sends.length
      = appliedFieldCount onlineReg 1 modeManualDoc ∧
    appliedFieldCount onlineReg 1 modeManualDoc = 1 := by
  have h := pull_per_field_sends onlineReg 1 modeManualDoc (by decide)
  exact ⟨h.1, h.2.1, by decide⟩

/-- C5 (amended): the first application of a remote settings document
to an online node triggers one send per field differing from local
state (possibly zero or several, not always exactly one); and provided
the document carries no applicable `manualControl` command and its
numeric fields are not NaN, applying the same document again triggers
zero sends, the second diff running against already-equal local
state.  (An applicable `manualControl` command, or a NaN numeric field
— NaN compares unequal to itself — re-fires on every application.) -/
theorem pull_idempotence_amended (g : Registry) (i : Nat)
    (doc : RemoteSettingsDoc) (hon : (g i).isOnline = true)
    (hmc : manualCmdOf doc = Char.ofNat 0)
    (htn : doc.temperatureThreshold.all (fun t => !t.isNaN) = true)
    (hhn : doc.hysteresis.all (fun t => !t.isNaN) = true) :
    (processNodeSettings g i doc).sends.length = appliedFieldCount g i doc ∧
    (processNodeSettings (processNodeSettings g i doc).registry i doc).sends
      = [] := by
  exact ⟨processNodeSettings_sends_length g i doc hon,
    processNodeSettings_second_pass g i doc hon hmc htn hhn⟩

/-- C5 witness: the amended theorem at node 1 of an online registry
and the two-field document; the first application sends twice, the
second not at all. -/
theorem pull_idempotence_amended_witness :
    (processNodeSettings onlineReg 1 twoFieldDoc).sends.length
      = appliedFieldCount onlineReg 1 twoFieldDoc ∧
    (processNodeSettings
        (processNodeSettings onlineReg 1 twoFieldDoc).registry
        1 twoFieldDoc).sends = [] :=
  pull_idempotence_amended onlineReg 1 twoFieldDoc (by decide) (by decide)
    (by decide) (by decide)

/-- A document whose only content is `manualControl = "open"`. -/
def manualOpenDoc : RemoteSettingsDoc :=
  { temperatureThreshold := none, hysteresis := none, mode := none,
    manualControl := some "open" }

/-- A document carrying a NaN `temperatureThreshold`. -/
def nanThresholdDoc : RemoteSettingsDoc :=
  { temperatureThreshold := some .nan, hysteresis := none, mode := none,
    manualControl := none }

/-- C5 counterexample: an empty document yields zero sends on its
first application (not exactly one); a document carrying
`manualControl = "open"` and a document carrying a NaN threshold each
yield a send on the second application as well (not zero). -/
theorem pull_not_idempotent :
    (processNodeSettings onlineReg 1 emptyDoc).sends.length = 0 ∧
    (processNodeSettings
        (processNodeSettings onlineReg 1 manualOpenDoc).registry
        1 manualOpenDoc).sends.length = 1 ∧
    (processNodeSettings
        (processNodeSettings onlineReg 1 nanThresholdDoc).registry
        1 nanThresholdDoc).sends.length = 1 := by
  refine ⟨by decide, by decide, by decide⟩

/-- A document whose `temperatureThreshold` is 999, far outside the
[0,50] range enforced on EEPROM load. -/
def doc999 : RemoteSettingsDoc :=
  { temperatureThreshold := some (.val 999), hysteresis := none,
    mode := none, manualControl := none }

/-- C8: the pull phase applies remote numeric settings with no range
or finiteness validation: a document with `temperatureThreshold = 999`
leaves 999 in the node's local settings, the send fired while applying
it already carries 999, and the next `sendControlToNode` payload for
that node carries 999 as well. -/
theorem pull_applies_unvalidated_threshold :
    ((processNodeSettings onlineReg 1 doc999).registry 1).settings.temperatureThreshold
      = .val 999 ∧
    (processNodeSettings onlineReg 1 doc999).sends =
      [{ targetNodeId := 1
         tempThreshold := .val 999
         hysteresis := .val (mkRat 1 2)
         autoMode := true
         manualCommand := Char.ofNat 0 }] ∧
    (sendControlToNode ((processNodeSettings onlineReg 1 doc999).registry) 1).2
      = some { targetNodeId := 1
               tempThreshold := .val 999
               hysteresis := .val (mkRat 1 2)
               autoMode := true
               manualCommand := Char.ofNat 0 } := by
  refine ⟨by decide, by decide, by decide⟩

/-!
The bulk broadcast `sendControlToAllNodes` (`esp_now_comm.cpp` lines
63-93): a loop over node ids 1..MAX_GREENHOUSES.  `MAX_GREENHOUSES`
lives in the repository's `config.h`, which only declares the
configured capacity, so the loop bound is a parameter here.  The final
`system/lastControlAll` write is best-effort (issued only when WiFi
and Firebase are up); the action string it records is modelled, the
timestamp is not.
-/

/-- One iteration of the `sendControlToAllNodes` loop body for node
`i`: skip unless online and within the staleness window, else set
`manualCommand` (forcing `autoMode = false` for 'O'/'C') and call
`sendControlToNode`, accumulating any transmitted payload. -/
def broadcastStep (command : Char) (now : Nat)
    (acc : Registry × List ControlMessage) (i : Nat) :
    Registry × List ControlMessage :=
  let g := acc.1
  if (g i).isOnline = false ∨ elapsed now (g i).lastSeen > 300000 then acc
  else
    let r0 := g i
    let s1 := { r0.settings with manualCommand := command }
    let s2 := if command = 'O' ∨ command = 'C' then
        { s1 with autoMode := false }
      else s1
    let g1 := updateAt g i { r0 with settings := s2 }
    let s := sendControlToNode g1 i
    (s.1, acc.2 ++ s.2.toList)

/-- Result of `sendControlToAllNodes`: final registry, all transmitted
payloads in order, and the action string recorded in the best-effort
`system/lastControlAll` write. -/
structure BroadcastResult where
  registry : Registry
  sends : List ControlMessage
  lastControlAllAction : String

/-- Embedding of `sendControlToAllNodes` (`esp_now_comm.cpp` lines
63-93), with the loop bound `maxG` standing for `MAX_GREENHOUSES` and
`now` for the `millis()` readings of the loop. -/
def sendControlToAllNodes (g : Registry) (maxG now : Nat) (command : Char) :
    BroadcastResult :=
  let r := (List.range' 1 maxG).foldl (broadcastStep command now) (g, [])
  { registry := r.1
    sends := r.2
    lastControlAllAction := if command = 'O' then "open" else "close" }

/-- What one `broadcastStep` iteration does to its own slot `d` and
which payloads it emits, as a function of the slot value alone. -/
def broadcastSlotOutcome (command : Char) (now : Nat) (i : Nat)
    (d : GreenhouseData) : GreenhouseData × List ControlMessage :=
  if d.isOnline = false ∨ elapsed now d.lastSeen > 300000 then (d, [])
  else
    let s2 := if command = 'O' ∨ command = 'C' then
        { d.settings with manualCommand := command, autoMode := false }
      else { d.settings with manualCommand := command }
    ({ d with settings := { s2 with manualCommand := Char.ofNat 0 } },
     [{ targetNodeId := i
        tempThreshold := s2.temperatureThreshold
        hysteresis := s2.hysteresis
        autoMode := s2.autoMode
        manualCommand := s2.manualCommand }])

theorem broadcastStep_self (c : Char) (now : Nat) (g : Registry)
    (msgs : List ControlMessage) (i : Nat) :
    (broadcastStep c now (g, msgs) i).1 i
        = (broadcastSlotOutcome c now i (g i)).1 ∧
    (broadcastStep c now (g, msgs) i).2
        = msgs ++ (broadcastSlotOutcome c now i (g i)).2 := by
  by_cases hskip : (g i).isOnline = false ∨ elapsed now (g i).lastSeen > 300000
  · simp [broadcastStep, broadcastSlotOutcome, hskip]
  · have hon : (g i).isOnline = true := by
      cases hcb : (g i).isOnline
      · exact absurd (Or.inl hcb) hskip
      · rfl
    push_neg at hskip
    have htime : ¬(300000 < elapsed now (g i).lastSeen) := not_lt.mpr hskip.2
    by_cases hoc : c = 'O' ∨ c = 'C'
    · simp [broadcastStep, broadcastSlotOutcome, hoc, htime,
        sendControlToNode, mkControlMessage, updateAt, hon]
    · simp [broadcastStep, broadcastSlotOutcome, hoc, htime,
        sendControlToNode, mkControlMessage, updateAt, hon]

theorem broadcastStep_frame (c : Char) (now : Nat) (g : Registry)
    (msgs : List ControlMessage) (i j : Nat) (h : j ≠ i) :
    (broadcastStep c now (g, msgs) i).1 j = g j := by
  by_cases hskip : (g i).isOnline = false ∨ elapsed now (g i).lastSeen > 300000
  · simp [broadcastStep, hskip]
  · have hon : (g i).isOnline = true := by
      cases hcb : (g i).isOnline
      · exact absurd (Or.inl hcb) hskip
      · rfl
    push_neg at hskip
    have htime : ¬(300000 < elapsed now (g i).lastSeen) := not_lt.mpr hskip.2
    simp [broadcastStep, htime, sendControlToNode, mkControlMessage,
      updateAt, hon, h]

theorem broadcastSlotOutcome_filter_self (c : Char) (now : Nat) (i : Nat)
    (d : GreenhouseData) :
    (broadcastSlotOutcome c now i d).2.filter (fun m => m.targetNodeId == i)
      = (broadcastSlotOutcome c now i d).2 := by
  by_cases hskip : d.isOnline = false ∨ elapsed now d.lastSeen > 300000
  · simp [broadcastSlotOutcome, hskip]
  · simp [broadcastSlotOutcome, hskip]

theorem broadcastSlotOutcome_filter_other (c : Char) (now : Nat) (i j : Nat)
    (d : GreenhouseData) (h : j ≠ i) :
    (broadcastSlotOutcome c now i d).2.filter (fun m => m.targetNodeId == j)
      = [] := by
  by_cases hskip : d.isOnline = false ∨ elapsed now d.lastSeen > 300000
  · simp [broadcastSlotOutcome, hskip]
  · simp [broadcastSlotOutcome, hskip, Ne.symm h]

theorem foldl_broadcast_out (c : Char) (now : Nat) :
    ∀ (n : Nat) (t : Nat) (g : Registry) (msgs : List ControlMessage)
      (i : Nat), i < t →
    (((List.range' t n).foldl (broadcastStep c now) (g, msgs)).1 i = g i ∧
     ((List.range' t n).foldl (broadcastStep c now) (g, msgs)).2.filter
         (fun m => m.targetNodeId == i)
       = msgs.filter (fun m => m.targetNodeId == i)) := by
  intro n
  induction n with
  | zero =>
      intro t g msgs i hit
      simp [List.range']
  | succ n ih =>
      intro t g msgs i hit
      have hr : List.range' t (n + 1) = t :: List.range' (t + 1) n := rfl
      rw [hr]
      have hfr := broadcastStep_frame c now g msgs t i (by omega)
      have hself := broadcastStep_self c now g msgs t
      have hih := ih (t + 1) (broadcastStep c now (g, msgs) t).1
        (broadcastStep c now (g, msgs) t).2 i (by omega)
      constructor
      · exact hih.1.trans hfr
      · refine hih.2.trans ?_
        rw [hself.2, List.filter_append,
          broadcastSlotOutcome_filter_other c now t i (g t) (by omega),
          List.append_nil]

theorem foldl_broadcast_at (c : Char) (now : Nat) :
    ∀ (n : Nat) (s : Nat) (g : Registry) (msgs : List ControlMessage)
      (i : Nat), s ≤ i → i < s + n →
    (((List.range' s n).foldl (broadcastStep c now) (g, msgs)).1 i
        = (broadcastSlotOutcome c now i (g i)).1 ∧
     ((List.range' s n).foldl (broadcastStep c now) (g, msgs)).2.filter
         (fun m => m.targetNodeId == i)
       = msgs.filter (fun m => m.targetNodeId == i)
           ++ (broadcastSlotOutcome c now i (g i)).2) := by
  intro n
  induction n with
  | zero =>
      intro s g msgs i hsi hin
      omega
  | succ n ih =>
      intro s g msgs i hsi hin
      have hr : List.range' s (n + 1) = s :: List.range' (s + 1) n := rfl
      rw [hr]
      by_cases hie : i = s
      · subst hie
        have hself := broadcastStep_self c now g msgs i
        have hout := foldl_broadcast_out c now n (i + 1)
          (broadcastStep c now (g, msgs) i).1
          (broadcastStep c now (g, msgs) i).2 i (by omega)
        constructor
        · exact hout.1.trans hself.1
        · refine hout.2.trans ?_
          rw [hself.2, List.filter_append,
            broadcastSlotOutcome_filter_self c now i (g i)]
      · have hfr := broadcastStep_frame c now g msgs s i (by omega)
        have hself := broadcastStep_self c now g msgs s
        have hih := ih (s + 1) (broadcastStep c now (g, msgs) s).1
          (broadcastStep c now (g, msgs) s).2 i (by omega) (by omega)
        rw [hfr] at hih
        constructor
        · exact hih.1
        · refine hih.2.trans ?_
          rw [hself.2, List.filter_append,
            broadcastSlotOutcome_filter_other c now s i (g s) hie,
            List.append_nil]

/-- C6: `sendControlToAllNodes(command)` — for every node id in
1..maxG that is live at call time (seen at least once and within the
300000 ms staleness window), the node's `manualCommand` is set to the
command (forcing `autoMode = false` when the command is 'O' or 'C')
and `sendControlToNode` is called for it, so exactly one payload
targeting that node and carrying the command is transmitted and the
final record shows the forced mode with `manualCommand` cleared by the
send; every node not live at call time is skipped with its record
unchanged and nothing transmitted to it. -/
theorem broadcastToAll_live_and_skip (g : Registry) (maxG now : Nat)
    (command : Char) (i : Nat) (h1 : 1 ≤ i) (h2 : i ≤ maxG) :
    (((g i).isOnline = true ∧ elapsed now (g i).lastSeen ≤ 300000) →
       (sendControlToAllNodes g maxG now command).registry i
           = { g i with settings :=
               { (g i).settings with
                 autoMode := if command = 'O' ∨ command = 'C' then false
                   else (g i).settings.autoMode
                 manualCommand := Char.ofNat 0 } } ∧
       (sendControlToAllNodes g maxG now command).sends.filter
           (fun m => m.targetNodeId == i)
         = [{ targetNodeId := i
              tempThreshold := (g i).settings.temperatureThreshold
              hysteresis := (g i).settings.hysteresis
              autoMode := if command = 'O' ∨ command = 'C' then false
                else (g i).settings.autoMode
              manualCommand := command }]) ∧
    (¬((g i).isOnline = true ∧ elapsed now (g i).lastSeen ≤ 300000) →
       (sendControlToAllNodes g maxG now command).registry i = g i ∧
       (sendControlToAllNodes g maxG now command).sends.filter
           (fun m => m.targetNodeId == i) = []) := by
  have hfold := foldl_broadcast_at command now maxG 1 g [] i h1 (by omega)
  have hreg : (sendControlToAllNodes g maxG now command).registry
      = ((List.range' 1 maxG).foldl (broadcastStep command now) (g, [])).1 :=
    rfl
  have hsnd : (sendControlToAllNodes g maxG now command).sends
      = ((List.range' 1 maxG).foldl (broadcastStep command now) (g, [])).2 :=
    rfl
  constructor
  · intro hlive
    have hc : ¬((g i).isOnline = false ∨ elapsed now (g i).lastSeen > 300000) := by
      push_neg
      exact ⟨by simp [hlive.1], hlive.2⟩
    constructor
    · rw [hreg, hfold.1]
      by_cases hoc : command = 'O' ∨ command = 'C' <;>
        simp [broadcastSlotOutcome, hc, hoc]
    · rw [hsnd, hfold.2]
      by_cases hoc : command = 'O' ∨ command = 'C' <;>
        simp [broadcastSlotOutcome, hc, hoc]
  · intro hnl
    have hc : (g i).isOnline = false ∨ elapsed now (g i).lastSeen > 300000 := by
      cases hcb : (g i).isOnline with
      | false => exact Or.inl rfl
      | true =>
          right
          by_contra hle
          push_neg at hle
          exact hnl ⟨hcb, hle⟩
    constructor
    · rw [hreg, hfold.1]
      simp [broadcastSlotOutcome, hc]
    · rw [hsnd, hfold.2]
      simp [broadcastSlotOutcome, hc]

/-- A registry whose node 3 sent telemetry at `millis() = 0`. -/
def g3seen : Registry :=
  updateAt initRegistry 3 { initData with isOnline := true }

/-- C6 witness: node 3 seen at t=0; a `broadcastToAll('O')` at
t=350000 (beyond the 300000 ms window) skips it and leaves its record
unchanged; at t=250000 it is still live and receives exactly one
payload carrying 'O' with `autoMode` forced off. -/
theorem broadcastToAll_live_and_skip_witness :
    ((sendControlToAllNodes g3seen 4 350000 'O').registry 3 = g3seen 3 ∧
     (sendControlToAllNodes g3seen 4 350000 'O').sends.filter
         (fun m => m.targetNodeId == 3) = []) ∧
    (sendControlToAllNodes g3seen 4 250000 'O').sends.filter
        (fun m => m.targetNodeId == 3)
      = [{ targetNodeId := 3
           tempThreshold := .val 25
           hysteresis := .val (mkRat 1 2)
           autoMode := false
           manualCommand := 'O' }] := by
  refine ⟨(broadcastToAll_live_and_skip g3seen 4 350000 'O' 3
    (by decide) (by decide)).2 (by decide), ?_⟩
  have h := (broadcastToAll_live_and_skip g3seen 4 250000 'O' 3
    (by decide) (by decide)).1 (by decide)
  rw [h.2]
  decide

/-- C10: the `system/lastControlAll` record written after a bulk
command carries action "open" exactly when the command was 'O' and
"close" for every other command value; in particular a Stop ('S') bulk
command is recorded as "close". -/
theorem broadcast_action_string (g : Registry) (maxG now : Nat)
    (command : Char) :
    ((sendControlToAllNodes g maxG now command).lastControlAllAction = "open"
        ↔ command = 'O') ∧
    (command ≠ 'O' →
       (sendControlToAllNodes g maxG now command).lastControlAllAction
         = "close") ∧
    (sendControlToAllNodes g maxG now 'S').lastControlAllAction = "close" := by
  refine ⟨?_, ?_, ?_⟩
  · by_cases h : command = 'O' <;> simp [sendControlToAllNodes, h]
  · intro h
    simp [sendControlToAllNodes, h]
  · simp [sendControlToAllNodes]

/-- C10 witness: a bulk Stop on the initial registry is recorded with
action "close". -/
theorem broadcast_action_string_witness :
    (sendControlToAllNodes initRegistry 4 0 'S').lastControlAllAction
      = "close" :=
  (broadcast_action_string initRegistry 4 0 'S').2.1 (by decide)

/-!
The EEPROM settings store (`settings_eeprom.cpp`).  The persistent
region is modelled as a function from slot index (nodeId - 1) to the
`GreenhouseSettings` record its raw bytes deserialize to; corrupted or
uninitialized storage shows up as arbitrary field values, NaN
included.
-/

/-- The validation block of `loadSettingsFromEEPROM`
(`settings_eeprom.cpp` lines 25-36): out-of-range or NaN
`temperatureThreshold` is replaced by 25.0, out-of-range or NaN
`hysteresis` by 0.5; the two fields are checked independently. -/
def validateSettings (s : GreenhouseSettings) : GreenhouseSettings :=
  let t := if s.temperatureThreshold.isNaN
      || flt s.temperatureThreshold (.val 0)
      || fgt s.temperatureThreshold (.val 50) then
      FVal.val 25
    else s.temperatureThreshold
  let h := if s.hysteresis.isNaN
      || flt s.hysteresis (.val 0)
      || fgt s.hysteresis (.val 5) then
      FVal.val (mkRat 1 2)
    else s.hysteresis
  { s with
    temperatureThreshold := t
    hysteresis := h }

/-- One iteration of the `loadSettingsFromEEPROM` loop for node `i`:
read slot `i - 1` and store the validated record. -/
def loadStep (eeprom : Nat → GreenhouseSettings) (acc : Registry) (i : Nat) :
    Registry :=
  updateAt acc i { acc i with settings := validateSettings (eeprom (i - 1)) }

/-- Embedding of `loadSettingsFromEEPROM` (`settings_eeprom.cpp` lines
19-38), looping over nodes 1..maxG. -/
def loadSettingsFromEEPROM (g : Registry) (maxG : Nat)
    (eeprom : Nat → GreenhouseSettings) : Registry :=
  (List.range' 1 maxG).foldl (loadStep eeprom) g

theorem validateSettings_thr_range (s : GreenhouseSettings) :
    ∃ q, (validateSettings s).temperatureThreshold = FVal.val q ∧
      0 ≤ q ∧ q ≤ 50 := by
  simp only [validateSettings]
  by_cases hc : (s.temperatureThreshold.isNaN
      || flt s.temperatureThreshold (.val 0)
      || fgt s.temperatureThreshold (.val 50)) = true
  · exact ⟨25, by simp [hc], by norm_num, by norm_num⟩
  · rcases ht : s.temperatureThreshold with _ | _ | _ | q
    · rw [ht] at hc
      simp [FVal.isNaN] at hc
    · rw [ht] at hc
      simp [FVal.isNaN, flt, fgt] at hc
    · rw [ht] at hc
      simp [FVal.isNaN, flt, fgt] at hc
    · rw [ht] at hc
      simp [FVal.isNaN, flt, fgt] at hc
      exact ⟨q, by simp [ht, hc.1, hc.2, flt, fgt, FVal.isNaN], hc.1, hc.2⟩

theorem validateSettings_hys_range (s : GreenhouseSettings) :
    ∃ q, (validateSettings s).hysteresis = FVal.val q ∧
      0 ≤ q ∧ q ≤ 5 := by
  simp only [validateSettings]
  by_cases hc : (s.hysteresis.isNaN
      || flt s.hysteresis (.val 0)
      || fgt s.hysteresis (.val 5)) = true
  · exact ⟨mkRat 1 2, by simp [hc], by decide, by decide⟩
  · rcases ht : s.hysteresis with _ | _ | _ | q
    · rw [ht] at hc
      simp [FVal.isNaN] at hc
    · rw [ht] at hc
      simp [FVal.isNaN, flt, fgt] at hc
    · rw [ht] at hc
      simp [FVal.isNaN, flt, fgt] at hc
    · rw [ht] at hc
      simp [FVal.isNaN, flt, fgt] at hc
      exact ⟨q, by simp [ht, hc.1, hc.2, flt, fgt, FVal.isNaN], hc.1, hc.2⟩

theorem foldl_load_out (eeprom : Nat → GreenhouseSettings) :
    ∀ (n t : Nat) (g : Registry) (i : Nat), i < t →
    ((List.range' t n).foldl (loadStep eeprom) g) i = g i := by
  intro n
  induction n with
  | zero =>
      intro t g i hit
      simp [List.range']
  | succ n ih =>
      intro t g i hit
      exact (ih (t + 1) (loadStep eeprom g t) i (by omega)).trans
        (updateAt_other g t _ i (by omega))

theorem foldl_load_at (eeprom : Nat → GreenhouseSettings) :
    ∀ (n s : Nat) (g : Registry) (i : Nat), s ≤ i → i < s + n →
    ((List.range' s n).foldl (loadStep eeprom) g) i
      = { g i with settings := validateSettings (eeprom (i - 1)) } := by
  intro n
  induction n with
  | zero =>
      intro s g i hs hin
      omega
  | succ n ih =>
      intro s g i hs hin
      by_cases hie : i = s
      · subst hie
        refine (foldl_load_out eeprom n (i + 1) (loadStep eeprom g i) i
          (by omega)).trans ?_
        show loadStep eeprom g i i = _
        simp [loadStep, updateAt_self]
      · refine (ih (s + 1) (loadStep eeprom g s) i (by omega) (by omega)).trans ?_
        rw [show loadStep eeprom g s i = g i from
          updateAt_other g s _ i (fun he => hie he)]

/-- C7: after `loadSettingsFromEEPROM`, every slot's
`temperatureThreshold` is a finite value in [0,50] and its
`hysteresis` a finite value in [0,5]; a stored NaN or out-of-range
threshold (such as 999) is replaced by the default 25.0, a stored
out-of-range hysteresis (such as -1) by the default 0.5, and stored
values that pass the validation are returned unchanged. -/
theorem loadAll_validates (g : Registry) (maxG : Nat)
    (eeprom : Nat → GreenhouseSettings) (i : Nat)
    (h1 : 1 ≤ i) (h2 : i ≤ maxG) :
    (∃ q, ((loadSettingsFromEEPROM g maxG eeprom) i).settings.temperatureThreshold
        = FVal.val q ∧ 0 ≤ q ∧ q ≤ 50) ∧
    (∃ q, ((loadSettingsFromEEPROM g maxG eeprom) i).settings.hysteresis
        = FVal.val q ∧ 0 ≤ q ∧ q ≤ 5) ∧
    ((eeprom (i - 1)).temperatureThreshold.isNaN = true →
       ((loadSettingsFromEEPROM g maxG eeprom) i).settings.temperatureThreshold
         = FVal.val 25) ∧
    ((eeprom (i - 1)).temperatureThreshold = FVal.val 999 →
       ((loadSettingsFromEEPROM g maxG eeprom) i).settings.temperatureThreshold
         = FVal.val 25) ∧
    ((eeprom (i - 1)).hysteresis = FVal.val (-1) →
       ((loadSettingsFromEEPROM g maxG eeprom) i).settings.hysteresis
         = FVal.val (mkRat 1 2)) ∧
    (((eeprom (i - 1)).temperatureThreshold.isNaN
        || flt (eeprom (i - 1)).temperatureThreshold (.val 0)
        || fgt (eeprom (i - 1)).temperatureThreshold (.val 50)) = false →
       ((loadSettingsFromEEPROM g maxG eeprom) i).settings.temperatureThreshold
         = (eeprom (i - 1)).temperatureThreshold) ∧
    (((eeprom (i - 1)).hysteresis.isNaN
        || flt (eeprom (i - 1)).hysteresis (.val 0)
        || fgt (eeprom (i - 1)).hysteresis (.val 5)) = false →
       ((loadSettingsFromEEPROM g maxG eeprom) i).settings.hysteresis
         = (eeprom (i - 1)).hysteresis) := by
  have hslot : (loadSettingsFromEEPROM g maxG eeprom) i
      = { g i with settings := validateSettings (eeprom (i - 1)) } :=
    foldl_load_at eeprom maxG 1 g i h1 (by omega)
  rw [hslot]
  refine ⟨validateSettings_thr_range _, validateSettings_hys_range _,
    ?_, ?_, ?_, ?_, ?_⟩
  · intro h
    simp [validateSettings, h]
  · intro h
    have hc : ((FVal.val 999).isNaN || flt (FVal.val 999) (.val 0)
        || fgt (FVal.val 999) (.val 50)) = true := by decide
    simp [validateSettings, h, hc]
  · intro h
    have hc : ((FVal.val (-1)).isNaN || flt (FVal.val (-1)) (.val 0)
        || fgt (FVal.val (-1)) (.val 5)) = true := by decide
    simp [validateSettings, h, hc]
  · intro h
    simp [validateSettings, h]
  · intro h
    simp [validateSettings, h]

/-- A persistent region whose slot 0 holds an out-of-range threshold
and hysteresis, slot 1 a NaN threshold, and whose other slots hold the
defaults. -/
def corruptEEPROM : Nat → GreenhouseSettings :=
  fun slot =>
    if slot = 0 then
      { temperatureThreshold := FVal.val 999, hysteresis := FVal.val (-1) }
    else if slot = 1 then { temperatureThreshold := FVal.nan }
    else {}

/-- C7 witness: loading `corruptEEPROM` over 4 slots yields 25.0 for
the 999 and NaN thresholds, 0.5 for the -1 hysteresis, and returns the
valid default record of slot 2 unchanged. -/
theorem loadAll_validates_witness :
    ((loadSettingsFromEEPROM initRegistry 4 corruptEEPROM) 1).settings.temperatureThreshold
      = FVal.val 25 ∧
    ((loadSettingsFromEEPROM initRegistry 4 corruptEEPROM) 1).settings.hysteresis
      = FVal.val (mkRat 1 2) ∧
    ((loadSettingsFromEEPROM initRegistry 4 corruptEEPROM) 2).settings.temperatureThreshold
      = FVal.val 25 ∧
    ((loadSettingsFromEEPROM initRegistry 4 corruptEEPROM) 3).settings.temperatureThreshold
      = FVal.val 25 := by
  have ha := loadAll_validates initRegistry 4 corruptEEPROM 1
    (by decide) (by decide)
  have hb := loadAll_validates initRegistry 4 corruptEEPROM 2
    (by decide) (by decide)
  have hd := loadAll_validates initRegistry 4 corruptEEPROM 3
    (by decide) (by decide)
  refine ⟨ha.2.2.2.1 (by decide), ha.2.2.2.2.1 (by decide),
    hb.2.2.1 (by decide), ?_⟩
  rw [hd.2.2.2.2.2.1 (by decide)]
  decide

/-- Embedding of `onDataReceived` (`esp_now_comm.cpp` lines 95-123).
`payload = none` models an inbound frame whose length is not
`sizeof(SensorData)`, dropped before decoding; a decoded frame with an
out-of-range nodeId is dropped silently; otherwise the frame replaces
the sensor snapshot of slot `nodeId`, sets `isOnline`, and stamps
`lastSeen` with the current `millis()`. -/
def onDataReceived (g : Registry) (maxG now : Nat)
    (payload : Option SensorData) : Registry :=
  match payload with
  | none => g
  | some d =>
      if d.nodeId < 1 ∨ d.nodeId > maxG then g
      else
        updateAt g d.nodeId
          { g d.nodeId with
            sensor := d
            isOnline := true
            lastSeen := now }

/-- The slot-id invariant: every slot that telemetry ingestion has
touched at least once (ingestion is the only writer of `isOnline`)
stores a snapshot whose embedded nodeId equals the slot index. -/
def NodeIdInv (g : Registry) : Prop :=
  ∀ i, (g i).isOnline = true → (g i).sensor.nodeId = i

/-- C9: the initial registry satisfies the slot-id invariant, every
ingestion preserves it (an accepted frame is written only to the slot
equal to its embedded nodeId, so that slot's stored snapshot carries
its own index), and every slot other than the accepted frame's nodeId
is left unchanged by the ingestion. -/
theorem ingest_writes_own_slot :
    NodeIdInv initRegistry ∧
    ∀ (g : Registry) (maxG now : Nat) (p : Option SensorData),
      NodeIdInv g →
      NodeIdInv (onDataReceived g maxG now p) ∧
      (∀ j, (∀ d, p = some d → j ≠ d.nodeId) →
         onDataReceived g maxG now p j = g j) := by
  constructor
  · intro i h
    simp [initRegistry, initData] at h
  · intro g maxG now p hinv
    constructor
    · intro i hon
      cases p with
      | none => exact hinv i hon
      | some d =>
          by_cases hr : d.nodeId < 1 ∨ d.nodeId > maxG
          · simp only [onDataReceived, if_pos hr] at hon ⊢
            exact hinv i hon
          · simp only [onDataReceived, if_neg hr] at hon ⊢
            by_cases hij : i = d.nodeId
            · subst hij
              rw [updateAt_self]
            · rw [updateAt_other _ _ _ _ hij] at hon ⊢
              exact hinv i hon
    · intro j hj
      cases p with
      | none => rfl
      | some d =>
          by_cases hr : d.nodeId < 1 ∨ d.nodeId > maxG
          · simp only [onDataReceived, if_pos hr]
          · have hne : j ≠ d.nodeId := hj d rfl
            simp only [onDataReceived, if_neg hr]
            exact updateAt_other _ _ _ _ hne

/-- A telemetry frame from node 2. -/
def sampleSensor : SensorData :=
  { nodeId := 2, temperature := .val 21, humidity := .val 40,
    pressure := .val 1013, ventStatus := 2, timestamp := 5 }

/-- C9 witness: ingesting a frame from node 2 into the initial
registry stores a snapshot whose nodeId is 2 in slot 2 and leaves slot
3 untouched. -/
theorem ingest_writes_own_slot_witness :
    (onDataReceived initRegistry 4 100 (some sampleSensor) 2).sensor.nodeId
      = 2 ∧
    onDataReceived initRegistry 4 100 (some sampleSensor) 3
      = initRegistry 3 := by
  have h := ingest_writes_own_slot
  have h2 := h.2 initRegistry 4 100 (some sampleSensor) h.1
  refine ⟨h2.1 2 (by decide), h2.2 3 ?_⟩
  intro d hd
  cases hd
  decide
